import Mathlib

/-!
Shallow embedding of `src/oc_declare_plug/plugin.py` (OC-Declare plugin).

The plugin delegates the actual discovery and conformance computation to the
external `oc_declare` library; here the library's conformance evaluator is an
abstract parameter `ev : OCDeclareArc → Option ℚ`, where `none` models a
raised exception (either in `OCDeclareArc(...)` construction inside the
library or in `oc_declare.check_conformance`).  Scores are modelled as
rationals, and Python's `round(x, 3)` as round-half-to-even at three decimal
places over ℚ.

Pydantic model construction is embedded as `Option`-returning constructors
that perform exactly the validation the models declare: the `Literal` check
on `type`/`o2o_mode`, `max_length=1` on the `min`/`max` input lists, and
`gt=0, le=1` on the discovery threshold.  The `Constraint` model declares no
other validator, so `mkConstraint` performs no further check.
-/

namespace OcDeclarePlug

/-- The `Literal["AS", "EF", "EP", "DF", "DP"]` annotation on `Constraint.type`
and `ConstraintInput.type`. -/
def arcTypeNames : List String := ["AS", "EF", "EP", "DF", "DP"]

/-- The `Constraint` pydantic model (plugin.py lines 22-31). -/
structure Constraint where
  type : String
  source : String
  target : String
  any_objects : List String
  all_objects : List String
  each_objects : List String
  min : Option Int
  max : Option Int
  conformance : Option ℚ
deriving DecidableEq

/-- Construction of a `Constraint` via pydantic: the only validation the model
declares is the `Literal` membership check on `type`; `conformance` defaults
to `None`. -/
def mkConstraint (type source target : String)
    (any_objects all_objects each_objects : List String)
    (mn mx : Option Int) : Option Constraint :=
  if type ∈ arcTypeNames then
    some { type := type, source := source, target := target,
           any_objects := any_objects, all_objects := all_objects,
           each_objects := each_objects, min := mn, max := mx,
           conformance := none }
  else none

/-- The fields of an `oc_declare.OCDeclareArc` as the plugin reads/writes them. -/
structure OCDeclareArc where
  from_activity : String
  to_activity : String
  arc_type_name : String
  min_count : Option Int
  max_count : Option Int
  any_ots : List String
  all_ots : List String
  each_ots : List String
deriving DecidableEq

/-- Function `map_ocdeclarearc_to_constraint` (plugin.py lines 34-44): builds a
`Constraint` from an arc; pydantic validates the `type` literal. -/
def map_ocdeclarearc_to_constraint (arc : OCDeclareArc) : Option Constraint :=
  mkConstraint arc.arc_type_name arc.from_activity arc.to_activity
    arc.any_ots arc.all_ots arc.each_ots arc.min_count arc.max_count

/-- Round-half-to-even to an integer, as Python's builtin `round` does. -/
def roundHalfEven (q : ℚ) : ℤ :=
  if q - Rat.floor q < 1/2 then Rat.floor q
  else if (1 : ℚ)/2 < q - Rat.floor q then Rat.floor q + 1
  else if Rat.floor q % 2 = 0 then Rat.floor q else Rat.floor q + 1

/-- Python's `round(score, 3)`. -/
def pyRound3 (q : ℚ) : ℚ := (roundHalfEven (q * 1000) : ℚ) / 1000

/-- The external conformance evaluator `oc_declare.check_conformance` applied
to a fixed processed log: `none` models a raised exception. -/
def Evaluator : Type := OCDeclareArc → Option ℚ

/-- The `OCDeclareArc(c.source, c.target, c.type, c.min, c.max, all_ots=...,
each_ots=..., any_ots=...)` call in `check_conformance_for_constraints`
(plugin.py lines 144-153). -/
def arcOfConstraint (c : Constraint) : OCDeclareArc :=
  { from_activity := c.source, to_activity := c.target,
    arc_type_name := c.type, min_count := c.min, max_count := c.max,
    any_ots := c.any_objects, all_ots := c.all_objects,
    each_ots := c.each_objects }

/-- One iteration of the loop body of `check_conformance_for_constraints`
(plugin.py lines 142-160): on success the score is rounded to three decimals
and written into `conformance`; on exception `conformance` is set to `None`
and the loop continues. -/
def checkConstraint (ev : Evaluator) (c : Constraint) : Constraint :=
  match ev (arcOfConstraint c) with
  | some score => { c with conformance := some (pyRound3 score) }
  | none => { c with conformance := none }

/-- Function `check_conformance_for_constraints` (plugin.py lines 129-162). -/
def check_conformance_for_constraints (ev : Evaluator)
    (cs : List Constraint) : List Constraint :=
  cs.map (checkConstraint ev)

/-- A row of the table built by `Constraints.visualize`: the `conformance`
key is present in the Python dict exactly when the field is non-`None`, so it
is kept as an `Option` here while the always-present keys are plain values. -/
structure Row where
  type : String
  source : String
  target : String
  all : String
  any : String
  each : String
  min : Option Int
  max : Option Int
  conformance : Option ℚ
deriving DecidableEq

/-- The table built by `Constraints.visualize`, with columns identified by
their `id` strings. -/
structure Table where
  columns : List String
  rows : List Row
deriving DecidableEq

/-- The eight unconditional columns of `Constraints.visualize`
(plugin.py lines 54-63). -/
def baseColumns : List String :=
  ["type", "source", "target", "all", "each", "any", "min", "max"]

/-- The row dict built for one constraint (plugin.py lines 71-83):
object-type lists joined with `", "`. -/
def rowOfConstraint (c : Constraint) : Row :=
  { type := c.type, source := c.source, target := c.target,
    all := String.intercalate ", " c.all_objects,
    any := String.intercalate ", " c.any_objects,
    each := String.intercalate ", " c.each_objects,
    min := c.min, max := c.max, conformance := c.conformance }

/-- Method `Constraints.visualize` (plugin.py lines 53-85): the conformance column is
appended only when some constraint has a non-`None` conformance. -/
def visualize (cs : List Constraint) : Table :=
  { columns := baseColumns ++
      (if cs.any (fun c => c.conformance.isSome) then ["conformance"] else []),
    rows := cs.map rowOfConstraint }

/-- The `Literal` annotation on `DiscoverInput.o2o_mode`. -/
def o2oModes : List String := ["None", "Direct", "Reversed", "Bidirectional"]

/-- The annotation `Field(default=0.2, gt=0, le=1)` on `DiscoverInput.threshold`. -/
def thresholdDefault : ℚ := 2/10

/-- The `DiscoverInput` pydantic model (plugin.py lines 88-102). -/
structure DiscoverInput where
  threshold : ℚ
  acts_to_use : List String
  o2o_mode : String
  check_conformance : Bool
deriving DecidableEq

/-- Construction of a `DiscoverInput` via pydantic: `threshold` must satisfy
`gt=0, le=1`, and `o2o_mode` its `Literal` annotation. -/
def mkDiscoverInput (threshold : ℚ) (acts : List String) (o2o : String)
    (cc : Bool) : Option DiscoverInput :=
  if 0 < threshold ∧ threshold ≤ 1 ∧ o2o ∈ o2oModes then
    some { threshold := threshold, acts_to_use := acts, o2o_mode := o2o,
           check_conformance := cc }
  else none

/-- Construction of a `DiscoverInput` with `threshold` not supplied: pydantic
fills in the declared default `0.2`. -/
def mkDiscoverInputDefault (acts : List String) (o2o : String)
    (cc : Bool) : Option DiscoverInput :=
  mkDiscoverInput thresholdDefault acts o2o cc

/-- The `ConstraintInput` pydantic model (plugin.py lines 105-113):
`min`/`max` are lists of integers. -/
structure ConstraintInput where
  type : String
  source : String
  target : String
  any_objects : List String
  all_objects : List String
  each_objects : List String
  min : List Int
  max : List Int
deriving DecidableEq

/-- Validation of a `ConstraintInput` via pydantic: the `Literal` check on
`type` and `max_length=1` on `min` and `max`; no other validator is declared,
in particular none relating the three object-type lists. -/
def validateConstraintInput (ci : ConstraintInput) : Option ConstraintInput :=
  if ci.type ∈ arcTypeNames ∧ ci.min.length ≤ 1 ∧ ci.max.length ≤ 1 then
    some ci
  else none

/-- The expression `c.min[0] if len(c.min) == 1 else None` (plugin.py lines 226-227). -/
def singleOrNone (l : List Int) : Option Int :=
  if l.length = 1 then l.head? else none

/-- The `Constraint(...)` call in the list comprehension of
`create_constraints` (plugin.py lines 219-228). -/
def constraintOfInput (ci : ConstraintInput) : Option Constraint :=
  mkConstraint ci.type ci.source ci.target
    ci.any_objects ci.all_objects ci.each_objects
    (singleOrNone ci.min) (singleOrNone ci.max)

/-- The list comprehension of `create_constraints` (plugin.py lines 218-230);
a pydantic validation error in any element propagates. -/
def constraintsOfInputs : List ConstraintInput → Option (List Constraint)
  | [] => some []
  | ci :: rest => do
    let c ← constraintOfInput ci
    let cs ← constraintsOfInputs rest
    pure (c :: cs)

/-- Method `OcDeclare.create_constraints` (plugin.py lines 200-234) after log import:
builds the constraints, then checks conformance only when requested. -/
def create_constraints (ev : Evaluator) (inputs : List ConstraintInput)
    (checkConf : Bool) : Option (List Constraint) := do
  let cs ← constraintsOfInputs inputs
  if checkConf then pure (check_conformance_for_constraints ev cs)
  else pure cs

/-- The arc loop of `OcDeclare.discover_constraints` (plugin.py lines
188-197): each discovered arc is mapped to a `Constraint`; when
`check_conformance` is requested the score is computed with no exception
handler, so a failure propagates (overall `none`). -/
def discover_constraints (ev : Evaluator) (checkConf : Bool) :
    List OCDeclareArc → Option (List Constraint)
  | [] => some []
  | arc :: rest => do
    let c ← map_ocdeclarearc_to_constraint arc
    let c2 ←
      if checkConf then
        (ev arc).map (fun score => { c with conformance := some (pyRound3 score) })
      else some c
    let cs ← discover_constraints ev checkConf rest
    pure (c2 :: cs)

/-- Method `OcDeclare.check_constraints` (plugin.py lines 237-255) after log import:
delegates to the batch checker. -/
def check_constraints (ev : Evaluator) (cs : List Constraint) :
    List Constraint :=
  check_conformance_for_constraints ev cs

/-- The non-`conformance` fields of a constraint, used to state frame
conditions. -/
def frame (c : Constraint) :
    String × String × String × List String × List String × List String ×
      Option Int × Option Int :=
  (c.type, c.source, c.target, c.any_objects, c.all_objects, c.each_objects,
    c.min, c.max)

/-- An evaluator that fails (raises) on every arc. -/
def evFail : Evaluator := fun _ => none

/-- An evaluator that returns score `1` on every arc. -/
def evOne : Evaluator := fun _ => some 1

/-- A concrete well-formed constraint used to instantiate theorems. -/
def demoC : Constraint :=
  { type := "EF", source := "A", target := "B",
    any_objects := [], all_objects := ["Order"], each_objects := [],
    min := some 1, max := some 1, conformance := none }

/-- A concrete constraint input populating two of the three object-type
lists. -/
def demoCI : ConstraintInput :=
  { type := "AS", source := "a", target := "b",
    any_objects := ["x"], all_objects := ["y"], each_objects := [],
    min := [], max := [2] }

/-- A concrete arc as the external discovery would return it. -/
def demoArc : OCDeclareArc :=
  { from_activity := "A", to_activity := "B", arc_type_name := "EF",
    min_count := some 1, max_count := some 2,
    any_ots := [], all_ots := ["Order"], each_ots := [] }

/-- The constraint `map_ocdeclarearc_to_constraint` builds from `demoArc`. -/
def demoDiscovered : Constraint :=
  { type := "EF", source := "A", target := "B",
    any_objects := [], all_objects := ["Order"], each_objects := [],
    min := some 1, max := some 2, conformance := none }

/-- The constraint `create_constraints` builds from `demoCI`. -/
def demoCreated : Constraint :=
  { type := "AS", source := "a", target := "b",
    any_objects := ["x"], all_objects := ["y"], each_objects := [],
    min := none, max := some 2, conformance := none }

/-! ## Helper lemmas -/

/-- When `mkConstraint` succeeds, the result is the record built from its
arguments, with `conformance := none`. -/
theorem mkConstraint_some (t s tg : String) (ao al eo : List String)
    (mn mx : Option Int) (c : Constraint)
    (h : mkConstraint t s tg ao al eo mn mx = some c) :
    c = { type := t, source := s, target := tg, any_objects := ao,
          all_objects := al, each_objects := eo, min := mn, max := mx,
          conformance := none } := by
  unfold mkConstraint at h
  split_ifs at h
  injection h with h2
  exact h2.symm

/-- Rewriting only the `conformance` field does not change the arc the batch
checker builds. -/
theorem arcOfConstraint_set_conformance (c : Constraint) (x : Option ℚ) :
    arcOfConstraint { c with conformance := x } = arcOfConstraint c := rfl

/-- One checking step is idempotent: the recomputed arc, hence the recomputed
score, is unchanged. -/
theorem checkConstraint_idem (ev : Evaluator) (c : Constraint) :
    checkConstraint ev (checkConstraint ev c) = checkConstraint ev c := by
  cases h : ev (arcOfConstraint c) <;>
    simp [checkConstraint, arcOfConstraint_set_conformance, h]

/-! ## Claims -/

/-- Claim C1: for every constraint set passed to the batch checker, every
input constraint receives a result in order (the output is the pointwise
checked list, of the same length), and a constraint whose evaluation raises
gets `conformance = none` instead of aborting the batch. -/
theorem batch_checker_isolates_failures (ev : Evaluator)
    (cs : List Constraint) :
    (check_conformance_for_constraints ev cs).length = cs.length
  ∧ (∀ i : ℕ, (check_conformance_for_constraints ev cs)[i]? =
      (cs[i]?).map (checkConstraint ev))
  ∧ (∀ c : Constraint, ev (arcOfConstraint c) = none →
      (checkConstraint ev c).conformance = none) := by
  refine ⟨by simp [check_conformance_for_constraints], ?_, ?_⟩
  · intro i
    exact List.getElem?_map (checkConstraint ev) cs i
  · intro c h
    simp [checkConstraint, h]

/-- Witness for C1 at a failing evaluator and a concrete constraint. -/
theorem batch_checker_isolates_failures_witness :
    evFail (arcOfConstraint demoC) = none
  ∧ (checkConstraint evFail demoC).conformance = none :=
  ⟨rfl, (batch_checker_isolates_failures evFail [demoC]).2.2 demoC rfl⟩

/-- Claim C5: when the evaluator succeeds with score `s` on a constraint, the
batch checker assigns exactly `round(s, 3)` to its `conformance`. -/
theorem checker_assigns_rounded_score (ev : Evaluator) (cs : List Constraint)
    (i : ℕ) (c : Constraint) (s : ℚ)
    (hc : cs[i]? = some c) (hs : ev (arcOfConstraint c) = some s) :
    (check_conformance_for_constraints ev cs)[i]? =
      some { c with conformance := some (pyRound3 s) } := by
  rw [check_conformance_for_constraints, List.getElem?_map, hc]
  simp [checkConstraint, hs]

/-- Witness for C5 at a unit-score evaluator and a singleton list. -/
theorem checker_assigns_rounded_score_witness :
    ([demoC][0]? = some demoC)
  ∧ evOne (arcOfConstraint demoC) = some 1
  ∧ (check_conformance_for_constraints evOne [demoC])[0]? =
      some { demoC with conformance := some (pyRound3 1) } :=
  ⟨rfl, rfl, checker_assigns_rounded_score evOne [demoC] 0 demoC 1 rfl rfl⟩

/-- Claim C6: checking returns the constraints in the same order and, apart
from `conformance`, every field of every constraint is unchanged. -/
theorem check_preserves_frame (ev : Evaluator) (cs : List Constraint) :
    (check_constraints ev cs).length = cs.length
  ∧ ∀ i : ℕ, ((check_constraints ev cs)[i]?).map frame = (cs[i]?).map frame := by
  constructor
  · simp [check_constraints, check_conformance_for_constraints]
  · intro i
    rw [check_constraints, check_conformance_for_constraints,
      List.getElem?_map, Option.map_map]
    cases cs[i]? with
    | none => rfl
    | some c =>
      cases h : ev (arcOfConstraint c) <;>
        simp [checkConstraint, frame, h, Function.comp]

/-- Claim C8: running the batch checker twice with the same log (evaluator)
yields the same conformance values: the second pass returns the first pass's
output unchanged. -/
theorem check_idempotent (ev : Evaluator) (cs : List Constraint) :
    check_conformance_for_constraints ev
        (check_conformance_for_constraints ev cs)
      = check_conformance_for_constraints ev cs := by
  induction cs with
  | nil => rfl
  | cons c rest ih =>
    simp only [check_conformance_for_constraints, List.map_cons] at ih ⊢
    rw [checkConstraint_idem]
    exact congrArg _ ih

/-- Claim C2, counterexample: constructing a `Constraint` with `min = 5` and
`max = 1` succeeds — the pydantic model declares no `min ≤ max` validator, so
a constraint with both bounds present and `min > max` is accepted at
construction time, refuting the claim that it is rejected there. -/
theorem constraint_min_gt_max_accepted :
    ∃ c : Constraint,
      mkConstraint "AS" "a" "b" [] [] [] (some 5) (some 1) = some c
      ∧ c.min = some 5 ∧ c.max = some 1
      ∧ ¬ (∀ mn mx : Int, c.min = some mn → c.max = some mx → mn ≤ mx) := by
  refine ⟨{ type := "AS", source := "a", target := "b", any_objects := [],
            all_objects := [], each_objects := [], min := some 5,
            max := some 1, conformance := none }, by decide, rfl, rfl, ?_⟩
  intro h
  have h5 := h 5 1 rfl rfl
  omega

/-- Claim C2 (amended): construction of a `Constraint` performs no check
relating `min` and `max`; whenever the `type` literal is valid, construction
succeeds and stores the given bounds unchanged, even when `min > max`. -/
theorem mkConstraint_no_bound_check (t s tg : String)
    (ao al eo : List String) (mn mx : Option Int) (h : t ∈ arcTypeNames) :
    ∃ c : Constraint, mkConstraint t s tg ao al eo mn mx = some c
      ∧ c.min = mn ∧ c.max = mx := by
  unfold mkConstraint
  rw [if_pos h]
  exact ⟨_, rfl, rfl, rfl⟩

/-- Witness for the amended C2 at bounds with `min > max`. -/
theorem mkConstraint_no_bound_check_witness :
    ("AS" ∈ arcTypeNames)
  ∧ ∃ c : Constraint,
      mkConstraint "AS" "a" "b" [] [] [] (some 5) (some 1) = some c
      ∧ c.min = some 5 ∧ c.max = some 1 :=
  ⟨by decide,
    mkConstraint_no_bound_check "AS" "a" "b" [] [] [] (some 5) (some 1)
      (by decide)⟩

/-- Claim C3, counterexample: a constraint input populating both `any_objects`
and `all_objects` passes pydantic validation and `create_constraints` accepts
it, producing a constraint carrying both lists — it is not rejected as a
structural error. -/
theorem multi_list_input_accepted :
    validateConstraintInput demoCI = some demoCI
  ∧ demoCI.any_objects = ["x"] ∧ demoCI.all_objects = ["y"]
  ∧ create_constraints evFail [demoCI] false =
      some [{ type := "AS", source := "a", target := "b",
              any_objects := ["x"], all_objects := ["y"], each_objects := [],
              min := none, max := some 2, conformance := none }] := by
  refine ⟨by decide, rfl, rfl, by decide⟩

/-- Claim C3 (amended): populating more than one of the three object-type
lists is accepted, not rejected: any validated constraint input is mapped to
a constraint, and all three lists are passed through unchanged regardless of
how many of them are non-empty. -/
theorem constraintOfInput_passes_lists (ci : ConstraintInput)
    (h : validateConstraintInput ci = some ci) :
    ∃ c : Constraint, constraintOfInput ci = some c
      ∧ c.any_objects = ci.any_objects ∧ c.all_objects = ci.all_objects
      ∧ c.each_objects = ci.each_objects := by
  have ht : ci.type ∈ arcTypeNames := by
    unfold validateConstraintInput at h
    split_ifs at h with hcond
    exact hcond.1
  unfold constraintOfInput mkConstraint
  rw [if_pos ht]
  exact ⟨_, rfl, rfl, rfl, rfl⟩

/-- Witness for the amended C3 at an input with two lists populated. -/
theorem constraintOfInput_passes_lists_witness :
    validateConstraintInput demoCI = some demoCI
  ∧ ∃ c : Constraint, constraintOfInput demoCI = some c
      ∧ c.any_objects = demoCI.any_objects
      ∧ c.all_objects = demoCI.all_objects
      ∧ c.each_objects = demoCI.each_objects :=
  ⟨by decide, constraintOfInput_passes_lists demoCI (by decide)⟩

/-- Claim C4: the visualized table has the conformance column exactly when
some constraint's conformance is non-`None`; each row carries a conformance
entry exactly when that constraint's conformance is non-`None` (the row's
optional entry equals the constraint's field); the eight other columns are
always present and the rows are the constraints' rows in order. -/
theorem visualize_conformance_column (cs : List Constraint) :
    ("conformance" ∈ (visualize cs).columns ↔ ∃ c ∈ cs, c.conformance ≠ none)
  ∧ (∀ col ∈ baseColumns, col ∈ (visualize cs).columns)
  ∧ (visualize cs).rows.length = cs.length
  ∧ (∀ i : ℕ, ((visualize cs).rows[i]?).map Row.conformance =
      (cs[i]?).map Constraint.conformance)
  ∧ (∀ i : ℕ, (visualize cs).rows[i]? = (cs[i]?).map rowOfConstraint) := by
  have hflag : ("conformance" ∈ (visualize cs).columns) ↔
      cs.any (fun c => c.conformance.isSome) = true := by
    by_cases hany : cs.any (fun c => c.conformance.isSome) = true
    · rw [show (visualize cs).columns = baseColumns ++ ["conformance"] by
        simp [visualize, hany]]
      exact iff_of_true (by decide) hany
    · rw [show (visualize cs).columns = baseColumns ++ [] by
        simp [visualize, hany]]
      exact iff_of_false (by decide) hany
  refine ⟨?_, ?_, ?_, ?_, ?_⟩
  · rw [hflag, List.any_eq_true]
    constructor
    · rintro ⟨c, hcin, hcs⟩
      exact ⟨c, hcin, by simpa [Option.isSome_iff_ne_none] using hcs⟩
    · rintro ⟨c, hcin, hcs⟩
      exact ⟨c, hcin, by simpa [Option.isSome_iff_ne_none] using hcs⟩
  · intro col hcol
    exact List.mem_append.2 (Or.inl hcol)
  · simp [visualize]
  · intro i
    rw [visualize]
    simp only [List.getElem?_map, Option.map_map]
    cases cs[i]? with
    | none => rfl
    | some c => rfl
  · intro i
    rw [visualize]
    exact List.getElem?_map rowOfConstraint cs i

/-- Witness for C4 at a concrete singleton constraint list. -/
theorem visualize_conformance_column_witness :
    ("conformance" ∈ (visualize [demoC]).columns ↔
      ∃ c ∈ [demoC], c.conformance ≠ none)
  ∧ (∀ col ∈ baseColumns, col ∈ (visualize [demoC]).columns)
  ∧ (visualize [demoC]).rows.length = [demoC].length
  ∧ (∀ i : ℕ, ((visualize [demoC]).rows[i]?).map Row.conformance =
      ([demoC][i]?).map Constraint.conformance)
  ∧ (∀ i : ℕ, (visualize [demoC]).rows[i]? =
      ([demoC][i]?).map rowOfConstraint) :=
  visualize_conformance_column [demoC]

/-- A constraint built from an input by `create_constraints` has
`conformance = none`. -/
theorem constraintOfInput_conformance_none (ci : ConstraintInput)
    (c : Constraint) (h : constraintOfInput ci = some c) :
    c.conformance = none := by
  unfold constraintOfInput at h
  rw [mkConstraint_some _ _ _ _ _ _ _ _ c h]

/-- A constraint built from a discovered arc has `conformance = none`. -/
theorem map_arc_conformance_none (arc : OCDeclareArc) (c : Constraint)
    (h : map_ocdeclarearc_to_constraint arc = some c) :
    c.conformance = none := by
  unfold map_ocdeclarearc_to_constraint at h
  rw [mkConstraint_some _ _ _ _ _ _ _ _ c h]

/-- Every constraint a successful run of the `create_constraints` list
comprehension produces has `conformance = none`. -/
theorem constraintsOfInputs_conformance_none (inputs : List ConstraintInput) :
    ∀ l, constraintsOfInputs inputs = some l →
      ∀ c ∈ l, c.conformance = none := by
  induction inputs with
  | nil =>
    intro l hl c hc
    injection hl with h2
    subst h2
    cases hc
  | cons ci rest ih =>
    intro l hl c hc
    rw [constraintsOfInputs] at hl
    cases hci : constraintOfInput ci with
    | none => simp [hci] at hl
    | some c0 =>
      cases hrest : constraintsOfInputs rest with
      | none => simp [hci, hrest] at hl
      | some l0 =>
        simp only [hci, hrest, Option.some_bind, Option.bind_some] at hl
        injection hl with h2
        subst h2
        rcases List.mem_cons.1 hc with rfl | hmem
        · exact constraintOfInput_conformance_none ci c hci
        · exact ih l0 hrest c hmem

/-- Every constraint a successful discovery pass without conformance checking
produces has `conformance = none`. -/
theorem discover_false_conformance_none (ev : Evaluator)
    (arcs : List OCDeclareArc) :
    ∀ l, discover_constraints ev false arcs = some l →
      ∀ c ∈ l, c.conformance = none := by
  induction arcs with
  | nil =>
    intro l hl c hc
    injection hl with h2
    subst h2
    cases hc
  | cons arc rest ih =>
    intro l hl c hc
    rw [discover_constraints] at hl
    cases hma : map_ocdeclarearc_to_constraint arc with
    | none => simp [hma] at hl
    | some c0 =>
      cases hrest : discover_constraints ev false rest with
      | none => simp [hma, hrest] at hl
      | some l0 =>
        simp only [hma, hrest, Bool.false_eq_true, if_false,
          Option.some_bind, Option.bind_some] at hl
        injection hl with h2
        subst h2
        rcases List.mem_cons.1 hc with rfl | hmem
        · exact map_arc_conformance_none arc c hma
        · exact ih l0 hrest c hmem

/-- Claim C7: every constraint produced by discovery without conformance
checking, and every constraint produced by `create_constraints` without
conformance checking, has `conformance = None`. -/
theorem unscored_conformance_none (ev : Evaluator) (arcs : List OCDeclareArc)
    (inputs : List ConstraintInput) :
    (∀ l, discover_constraints ev false arcs = some l →
      ∀ c ∈ l, c.conformance = none)
  ∧ (∀ l, create_constraints ev inputs false = some l →
      ∀ c ∈ l, c.conformance = none) := by
  constructor
  · exact discover_false_conformance_none ev arcs
  · intro l hl c hc
    have hco : constraintsOfInputs inputs = some l := by
      rw [create_constraints] at hl
      cases hci : constraintsOfInputs inputs with
      | none => simp [hci] at hl
      | some l0 =>
        simp only [hci] at hl
        simp at hl
        subst hl
        rfl
    exact constraintsOfInputs_conformance_none inputs l hco c hc

/-- Witness for C7 at a concrete discovered arc and a concrete input. -/
theorem unscored_conformance_none_witness :
    discover_constraints evFail false [demoArc] = some [demoDiscovered]
  ∧ demoDiscovered.conformance = none
  ∧ create_constraints evFail [demoCI] false = some [demoCreated]
  ∧ demoCreated.conformance = none :=
  ⟨by decide,
   (unscored_conformance_none evFail [demoArc] [demoCI]).1 [demoDiscovered]
     (by decide) demoDiscovered (List.mem_singleton.2 rfl),
   by decide,
   (unscored_conformance_none evFail [demoArc] [demoCI]).2 [demoCreated]
     (by decide) demoCreated (List.mem_singleton.2 rfl)⟩

/-- Claim C9: discovery input construction accepts a threshold exactly when
it lies in `(0, 1]`, and when the threshold is not supplied it defaults to
`0.2`. -/
theorem discover_threshold_validation (t : ℚ) (acts : List String)
    (o2o : String) (cc : Bool) (h : o2o ∈ o2oModes) :
    ((mkDiscoverInput t acts o2o cc).isSome ↔ (0 < t ∧ t ≤ 1))
  ∧ mkDiscoverInputDefault acts o2o cc =
      some { threshold := 2/10, acts_to_use := acts, o2o_mode := o2o,
             check_conformance := cc } := by
  constructor
  · constructor
    · intro hs
      unfold mkDiscoverInput at hs
      split_ifs at hs with hcond
      · exact ⟨hcond.1, hcond.2.1⟩
      · simp at hs
    · rintro ⟨h1, h2⟩
      unfold mkDiscoverInput
      rw [if_pos ⟨h1, h2, h⟩]
      rfl
  · unfold mkDiscoverInputDefault mkDiscoverInput thresholdDefault
    rw [if_pos ⟨by norm_num, by norm_num, h⟩]

/-- Witness for C9 at a valid resolution mode and threshold `1/2`. -/
theorem discover_threshold_validation_witness :
    ("None" ∈ o2oModes)
  ∧ ((mkDiscoverInput (1/2) [] "None" false).isSome ↔
      (0 < (1/2 : ℚ) ∧ (1/2 : ℚ) ≤ 1))
  ∧ mkDiscoverInputDefault [] "None" false =
      some { threshold := 2/10, acts_to_use := [], o2o_mode := "None",
             check_conformance := false } :=
  ⟨by decide,
   (discover_threshold_validation (1/2) [] "None" false (by decide)).1,
   (discover_threshold_validation (1/2) [] "None" false (by decide)).2⟩

/-- Claim C10: validated constraint inputs carry `min`/`max` as lists of at
most one integer, and the constructed constraint's `min` (resp. `max`) is the
single element when the list is a singleton and `None` when it is empty. -/
theorem create_min_max_single_or_none (ci ci2 : ConstraintInput)
    (h : validateConstraintInput ci = some ci2) :
    ci2 = ci ∧ ci.min.length ≤ 1 ∧ ci.max.length ≤ 1
  ∧ (∀ c : Constraint, constraintOfInput ci = some c →
      ((∀ x : Int, ci.min = [x] → c.min = some x)
     ∧ (ci.min = [] → c.min = none)
     ∧ (∀ x : Int, ci.max = [x] → c.max = some x)
     ∧ (ci.max = [] → c.max = none))) := by
  have hcond : ci.type ∈ arcTypeNames ∧ ci.min.length ≤ 1
      ∧ ci.max.length ≤ 1 := by
    unfold validateConstraintInput at h
    split_ifs at h with hc
    exact hc
  have hci2 : ci2 = ci := by
    unfold validateConstraintInput at h
    rw [if_pos hcond] at h
    injection h with h2
    exact h2.symm
  refine ⟨hci2, hcond.2.1, hcond.2.2, ?_⟩
  intro c hc
  unfold constraintOfInput at hc
  have hrec := mkConstraint_some _ _ _ _ _ _ _ _ c hc
  refine ⟨?_, ?_, ?_, ?_⟩
  · intro x hx
    rw [hrec]
    simp [singleOrNone, hx]
  · intro hx
    rw [hrec]
    simp [singleOrNone, hx]
  · intro x hx
    rw [hrec]
    simp [singleOrNone, hx]
  · intro hx
    rw [hrec]
    simp [singleOrNone, hx]

/-- Witness for C10 at an input with empty `min` list and singleton `max`
list. -/
theorem create_min_max_single_or_none_witness :
    validateConstraintInput demoCI = some demoCI
  ∧ demoCI.min.length ≤ 1 ∧ demoCI.max.length ≤ 1 :=
  ⟨by decide,
   (create_min_max_single_or_none demoCI demoCI (by decide)).2.1,
   (create_min_max_single_or_none demoCI demoCI (by decide)).2.2.1⟩

end OcDeclarePlug
